import Mathlib

/-!
Verification of the e-commerce backend (`src/main.py`).

Shallow embedding of the FastAPI e-commerce backend.  The Python program's
monetary values are IEEE doubles; here every numeric literal and arithmetic
operation is modelled exactly over `ℚ` (the standard idealisation: each
decimal literal denotes its exact rational value).  Python's `round(x, 2)`
(round half to even, two decimal places) is modelled by `round2`.
MongoDB `ObjectId` values are modelled by their 24-hex-digit string form,
with `ObjectId(s)`/`str(_id)` round-trips taken as the identity on these
strings.  The store adapter (`database.py`, which is not part of the
sources) is modelled from the spec where needed; each such definition is
marked `Modelled from the spec:` in its doc comment.
-/

namespace ECom

/-- Python round-half-to-even to the nearest integer, on exact rationals
(the idealised semantics of CPython's `round` builtin). -/
def rhe (q : ℚ) : ℤ :=
  if q - (⌊q⌋ : ℚ) < 1/2 then ⌊q⌋
  else if q - (⌊q⌋ : ℚ) > 1/2 then ⌊q⌋ + 1
  else if ⌊q⌋ % 2 = 0 then ⌊q⌋ else ⌊q⌋ + 1

/-- Python `round(x, 2)`: round half to even at two decimal places. -/
def round2 (q : ℚ) : ℚ := (rhe (q * 100) : ℚ) / 100

/-- A hexadecimal digit (either case), as accepted by `bson.ObjectId`. -/
def isHexChar (c : Char) : Bool :=
  c.isDigit || (('a' ≤ c) && (c ≤ 'f')) || (('A' ≤ c) && (c ≤ 'F'))

/-- The `bson.ObjectId.is_valid` test on a string: exactly 24 hex characters. -/
def isValidObjectId (s : String) : Bool :=
  s.length == 24 && s.toList.all isHexChar

/-- A document of the `product` collection.  `pid` is `str(doc["_id"])`;
every other field is optional, mirroring `doc.get(...)` access in the code. -/
structure StoredProduct where
  pid : String
  title : Option String := none
  description : Option String := none
  price : Option ℚ := none
  category : Option String := none
  image : Option String := none
  in_stock : Option Bool := none
deriving DecidableEq, Repr

/-- The `CartItem` request model (`main.py`): `quantity` is a plain `int`,
so zero and negative values pass validation. -/
structure CartItem where
  product_id : String
  quantity : Int
deriving DecidableEq, Repr

/-- The `CheckoutRequest` request model (`main.py`). -/
structure CheckoutRequest where
  customer_name : String
  customer_email : String
  customer_address : String
  items : List CartItem
deriving DecidableEq, Repr

/-- The `OrderItem` model (`schemas.py`, used by `main.py`): carries only the product
identifier and the quantity — no per-line price field exists. -/
structure OrderItem where
  product_id : String
  quantity : Int
deriving DecidableEq, Repr

/-- The `Order` document built by `checkout` (`schemas.py` shape as used in
`main.py` lines 145-153). -/
structure Order where
  customer_name : String
  customer_email : String
  customer_address : String
  items : List OrderItem
  subtotal : ℚ
  tax : ℚ
  total : ℚ
deriving DecidableEq, Repr

/-- The database: the `product` and `order` collections, in insertion order. -/
structure DB where
  product : List StoredProduct
  order : List Order
deriving DecidableEq, Repr

instance {ε α : Type} [DecidableEq ε] [DecidableEq α] : DecidableEq (Except ε α) :=
  fun x y =>
    match x, y with
    | .ok a, .ok b =>
      if h : a = b then isTrue (by rw [h])
      else isFalse (fun hc => h (by injection hc))
    | .error a, .error b =>
      if h : a = b then isTrue (by rw [h])
      else isFalse (fun hc => h (by injection hc))
    | .ok _, .error _ => isFalse (fun hc => Except.noConfusion hc)
    | .error _, .ok _ => isFalse (fun hc => Except.noConfusion hc)

/-! ## Checkout (`main.py` lines 127-155) -/

/-- The errors `checkout` raises as HTTP 400 (`HTTPException`):
`"Invalid product IDs"` and `"Product not found: {pid}"`. -/
inductive CheckoutError where
  | invalidInput : CheckoutError
  | productNotFound : String → CheckoutError
deriving DecidableEq, Repr

/-- Line 130: `ids = [ObjectId(i.product_id) for i in payload.items if
ObjectId.is_valid(i.product_id)]` (the `ObjectId` constructor modelled as the
identity on valid 24-hex strings). -/
def validIds (items : List CartItem) : List String :=
  (items.filter (fun i => isValidObjectId i.product_id)).map (fun i => i.product_id)

/-- Line 133: `db["product"].find({"_id": {"$in": ids}})` — the documents
whose id occurs in `ids`, in store (insertion) order. -/
def findProducts (store : List StoredProduct) (ids : List String) : List StoredProduct :=
  store.filter (fun p => ids.contains p.pid)

/-- The value `float(p.get("price", 0))`: a missing price field defaults to 0. -/
def priceOf (p : StoredProduct) : ℚ := p.price.getD 0

/-- Line 134: the dict comprehension `{str(p["_id"]): float(p.get("price", 0))
for p in products}`; on duplicate keys the last binding wins, hence the
reversed search. -/
def priceMap (products : List StoredProduct) (pid : String) : Option ℚ :=
  (products.reverse.find? (fun p => p.pid == pid)).map priceOf

/-- Lines 136-141: the accumulation loop.  Fails with `productNotFound` at the
first item whose id is not a key of the price map; otherwise adds
`price_map[pid] * item.quantity` to the accumulator. -/
def accumulate (pm : String → Option ℚ) : List CartItem → ℚ → Except CheckoutError ℚ
  | [], acc => .ok acc
  | i :: rest, acc =>
    match pm i.product_id with
    | none => .error (.productNotFound i.product_id)
    | some price => accumulate pm rest (acc + price * (i.quantity : ℚ))

/-- Line 142: `tax = round(subtotal * 0.08, 2)`, applied to the *unrounded*
accumulated subtotal. -/
def computeTax (s : ℚ) : ℚ := round2 (s * (8/100))

/-- Line 143: `total = round(subtotal + tax, 2)`, again from the unrounded
accumulated subtotal. -/
def computeTotal (s : ℚ) : ℚ := round2 (s + computeTax s)

/-- Lines 127-153: the checkout computation up to (but not including)
persistence.  Returns the constructed `Order` together with the response
total, or the HTTP-400 error raised. -/
def checkout (store : List StoredProduct) (payload : CheckoutRequest) :
    Except CheckoutError (Order × ℚ) :=
  if (validIds payload.items).isEmpty then .error .invalidInput
  else
    match accumulate (priceMap (findProducts store (validIds payload.items)))
        payload.items 0 with
    | .error e => .error e
    | .ok subtotal =>
      .ok ({ customer_name := payload.customer_name
             customer_email := payload.customer_email
             customer_address := payload.customer_address
             items := payload.items.map (fun i =>
               { product_id := i.product_id, quantity := i.quantity })
             subtotal := round2 subtotal
             tax := computeTax subtotal
             total := computeTotal subtotal }, computeTotal subtotal)

/-- The `CheckoutResponse` model (`main.py`): the persisted order's id and the total.
Store-generated ids are modelled by the index of the inserted document. -/
structure CheckoutResponse where
  order_id : Nat
  total : ℚ
deriving DecidableEq, Repr

/-- The full `/api/checkout` endpoint including persistence.  `create_document`
(`database.py`, not under `src/`) is Modelled from the spec: `insertOne`
appends the document to the collection and returns its store-assigned id. -/
def runCheckout (db : DB) (payload : CheckoutRequest) :
    DB × Except CheckoutError CheckoutResponse :=
  match checkout db.product payload with
  | .error e => (db, .error e)
  | .ok (o, total) =>
    ({ db with order := db.order ++ [o] },
     .ok { order_id := db.order.length, total := total })

/-! ## Product catalog query (`main.py` lines 70-89) -/

/-- The six sample products of lines 102-109.  Their store-assigned `_id`s
are not observable through the seed contract and are modelled as `""`. -/
def sampleProducts : List StoredProduct :=
  [ { pid := "", title := some "Wireless Headphones"
      description := some "Noise-cancelling over-ear headphones"
      price := some (12999/100), category := some "Electronics"
      image := some "https://images.unsplash.com/photo-1518443155474-2d46acb2b3de?auto=format&fit=crop&w=800&q=60"
      in_stock := some true }
  , { pid := "", title := some "Smart Watch"
      description := some "Track fitness and notifications"
      price := some 199, category := some "Electronics"
      image := some "https://images.unsplash.com/photo-1516570161787-2fd917215a3d?auto=format&fit=crop&w=800&q=60"
      in_stock := some true }
  , { pid := "", title := some "Espresso Machine"
      description := some "Barista-quality coffee at home"
      price := some 349, category := some "Home"
      image := some "https://images.unsplash.com/photo-1470176519524-3cf9e6dccbad?auto=format&fit=crop&w=800&q=60"
      in_stock := some true }
  , { pid := "", title := some "Running Shoes"
      description := some "Lightweight and comfortable"
      price := some (8999/100), category := some "Fashion"
      image := some "https://images.unsplash.com/photo-1542291026-7eec264c27ff?auto=format&fit=crop&w=800&q=60"
      in_stock := some true }
  , { pid := "", title := some "Backpack"
      description := some "Durable everyday carry"
      price := some (5999/100), category := some "Accessories"
      image := some "https://images.unsplash.com/photo-1521093470119-a3acdc43374e?auto=format&fit=crop&w=800&q=60"
      in_stock := some true }
  , { pid := "", title := some "Bluetooth Speaker"
      description := some "Portable with deep bass"
      price := some (795/10), category := some "Electronics"
      image := some "https://images.unsplash.com/photo-1512446816042-444d641267d4?auto=format&fit=crop&w=800&q=60"
      in_stock := some true } ]

/-- The `POST /api/seed` response: `seeded` plus either the existing `count`
or the `inserted` count. -/
structure SeedResult where
  seeded : Bool
  count : Option Nat := none
  inserted : Option Nat := none
deriving DecidableEq, Repr

/-- The `POST /api/seed` handler (lines 97-111): count the collection; if non-empty do
nothing, else `insert_many` the six samples.  `count_documents` and
`insert_many` on the store are Modelled from the spec: `countAll` returns
the collection size and inserts append in order. -/
def seed_products (db : DB) : DB × SeedResult :=
  if db.product.length > 0 then
    (db, { seeded := false, count := some db.product.length })
  else
    ({ db with product := db.product ++ sampleProducts },
     { seeded := true, inserted := some sampleProducts.length })

/-! ## Derived views of checkout used throughout the proofs -/

/-- The price map used by `checkout` for a given request. -/
def checkoutPriceMap (store : List StoredProduct) (items : List CartItem) :
    String → Option ℚ :=
  priceMap (findProducts store (validIds items))

/-- The order record `checkout` builds from a request and a raw subtotal. -/
def builtOrder (payload : CheckoutRequest) (s : ℚ) : Order :=
  { customer_name := payload.customer_name
    customer_email := payload.customer_email
    customer_address := payload.customer_address
    items := payload.items.map (fun i =>
      { product_id := i.product_id, quantity := i.quantity })
    subtotal := round2 s
    tax := computeTax s
    total := computeTotal s }

/-! ## Concrete fixtures used by counterexamples and witnesses -/

def pidA : String := "aaaaaaaaaaaaaaaaaaaaaaaa"

def pidB : String := "bbbbbbbbbbbbbbbbbbbbbbbb"

/-- A syntactically valid id that no fixture store contains. -/
def pidC : String := "cccccccccccccccccccccccc"

/-- The spec's scenario catalog: Product A priced 10.00, Product B priced
20.00. -/
def demoStore : List StoredProduct :=
  [ { pid := pidA, title := some "Product A", price := some 10 }
  , { pid := pidB, title := some "Product B", price := some 20 } ]

/-- The spec's scenario request: items [(A,2),(B,1)]. -/
def demoPayload : CheckoutRequest :=
  { customer_name := "Ada"
    customer_email := "ada@example.com"
    customer_address := "1 Main St"
    items := [ { product_id := pidA, quantity := 2 }
             , { product_id := pidB, quantity := 1 } ] }

/-- A database whose product collection is the scenario catalog. -/
def demoDB : DB := { product := demoStore, order := [] }

/-- A request naming one stocked product and one absent (valid-format) id. -/
def missingPayload : CheckoutRequest :=
  { customer_name := "Bob"
    customer_email := "bob@example.com"
    customer_address := "2 Side St"
    items := [ { product_id := pidA, quantity := 1 }
             , { product_id := pidC, quantity := 1 } ] }

/-- A catalog holding a single product priced 0.064. -/
def c1Store : List StoredProduct :=
  [ { pid := pidA, title := some "Odd Priced", price := some (8/125) } ]

/-- A one-item request for the 0.064-priced product. -/
def c1Payload : CheckoutRequest :=
  { customer_name := "Eve"
    customer_email := "eve@example.com"
    customer_address := "3 Rear St"
    items := [ { product_id := pidA, quantity := 1 } ] }

/-- The order `checkout` persists for `c1Payload` (raw subtotal 0.064). -/
def c1Order : Order := builtOrder c1Payload (8/125)

/-- A catalog holding a single product priced 1.064. -/
def c2Store : List StoredProduct :=
  [ { pid := pidA, title := some "Odd Priced Too", price := some (133/125) } ]

/-- A one-item request for the 1.064-priced product. -/
def c2Payload : CheckoutRequest :=
  { customer_name := "Kim"
    customer_email := "kim@example.com"
    customer_address := "4 High St"
    items := [ { product_id := pidA, quantity := 1 } ] }

/-- The order `checkout` persists for `c2Payload` (raw subtotal 1.064). -/
def c2Order : Order := builtOrder c2Payload (133/125)

/-- A stored product with no price field. -/
def c9Store : List StoredProduct :=
  [ { pid := pidA, title := some "Priceless" } ]

/-- A request for the priceless product. -/
def c9Payload : CheckoutRequest :=
  { customer_name := "Lee"
    customer_email := "lee@example.com"
    customer_address := "5 Low St"
    items := [ { product_id := pidA, quantity := 5 } ] }

/-- A one-product catalog with a parameterised price. -/
def c10Store (price : ℚ) : List StoredProduct :=
  [ { pid := pidA, title := some "Anything", price := some price } ]

/-- A one-item request with a parameterised quantity. -/
def c10Payload (qty : ℤ) : CheckoutRequest :=
  { customer_name := "Max"
    customer_email := "max@example.com"
    customer_address := "6 Any St"
    items := [ { product_id := pidA, quantity := qty } ] }

/-- The order persisted for quantity −1 at price 10 (raw subtotal −10). -/
def c10NegOrder : Order := builtOrder (c10Payload (-1)) (-10)

/-! ## Evaluation lemmas for rounding -/

lemma rhe_eq_low (q : ℚ) (n : ℤ) (h1 : (n : ℚ) ≤ q) (h2 : q < n + 1/2) :
    rhe q = n := by
  have hf : ⌊q⌋ = n := Int.floor_eq_iff.mpr ⟨h1, by linarith⟩
  unfold rhe
  rw [hf, if_pos (by linarith)]

lemma rhe_eq_high (q : ℚ) (n : ℤ) (h1 : (n : ℚ) + 1/2 < q) (h2 : q < n + 1) :
    rhe q = n + 1 := by
  have hf : ⌊q⌋ = n := Int.floor_eq_iff.mpr ⟨by linarith, h2⟩
  unfold rhe
  rw [hf, if_neg (by linarith), if_pos (by linarith)]

lemma round2_eq_low (q st : ℚ) (n : ℤ) (h1 : (n : ℚ) ≤ q * 100)
    (h2 : q * 100 < n + 1/2) (h3 : (n : ℚ) / 100 = st) : round2 q = st := by
  unfold round2
  rw [rhe_eq_low (q * 100) n h1 h2, h3]

lemma round2_eq_high (q st : ℚ) (n : ℤ) (h1 : (n : ℚ) + 1/2 < q * 100)
    (h2 : q * 100 < n + 1) (h3 : ((n : ℚ) + 1) / 100 = st) : round2 q = st := by
  unfold round2
  rw [rhe_eq_high (q * 100) n h1 h2]
  push_cast
  exact h3

/-! ## Structural lemmas about the checkout computation -/

/-- A successful accumulation computes the exact sum of `price × quantity`
over the items, started from `acc`. -/
lemma accumulate_ok_eq (pm : String → Option ℚ) :
    ∀ (items : List CartItem) (acc s : ℚ),
      accumulate pm items acc = .ok s →
      s = acc + (items.map (fun i => ((pm i.product_id).getD 0) * (i.quantity : ℚ))).sum
  | [], acc, s, h => by
    simp [accumulate] at h
    simp [h]
  | i :: rest, acc, s, h => by
    cases hpm : pm i.product_id with
    | none => simp [accumulate, hpm] at h
    | some p =>
      rw [accumulate, hpm] at h
      have ih := accumulate_ok_eq pm rest (acc + p * (i.quantity : ℚ)) s h
      simp [ih, hpm]
      ring

/-- If some item's id is missing from the price map, accumulation fails with
`productNotFound` at the first such item. -/
lemma accumulate_find_missing (pm : String → Option ℚ) :
    ∀ (items : List CartItem) (i : CartItem) (acc : ℚ),
      items.find? (fun j => (pm j.product_id).isNone) = some i →
      accumulate pm items acc = .error (.productNotFound i.product_id)
  | [], i, acc, h => by simp [List.find?] at h
  | j :: rest, i, acc, h => by
    cases hpm : pm j.product_id with
    | none =>
      rw [List.find?] at h
      rw [hpm] at h
      simp at h
      rw [accumulate, hpm, h]
    | some p =>
      rw [List.find?] at h
      rw [hpm] at h
      simp at h
      rw [accumulate, hpm]
      exact accumulate_find_missing pm rest i _ h

/-- If every item's id is a key of the price map, accumulation succeeds. -/
lemma accumulate_all_some (pm : String → Option ℚ) :
    ∀ (items : List CartItem) (acc : ℚ),
      (∀ i ∈ items, (pm i.product_id).isSome = true) →
      ∃ s, accumulate pm items acc = .ok s
  | [], acc, _ => ⟨acc, rfl⟩
  | i :: rest, acc, h => by
    cases hpm : pm i.product_id with
    | none =>
      have := h i (by simp)
      rw [hpm] at this
      simp at this
    | some p =>
      obtain ⟨s, hs⟩ := accumulate_all_some pm rest (acc + p * (i.quantity : ℚ))
        (fun j hj => h j (by simp [hj]))
      exact ⟨s, by rw [accumulate, hpm]; exact hs⟩

/-- Inversion of a successful checkout: the accumulation succeeded with some
raw subtotal `s`, and the returned order is exactly the record built from it. -/
lemma checkout_ok_inv (store : List StoredProduct) (payload : CheckoutRequest)
    (o : Order) (t : ℚ) (h : checkout store payload = .ok (o, t)) :
    ∃ s, accumulate (checkoutPriceMap store payload.items) payload.items 0 = .ok s ∧
      o = builtOrder payload s ∧ t = o.total := by
  unfold checkout at h
  by_cases hne : (validIds payload.items).isEmpty
  · rw [if_pos hne] at h
    exact absurd h (by simp)
  · rw [if_neg hne] at h
    rw [show priceMap (findProducts store (validIds payload.items)) =
      checkoutPriceMap store payload.items from rfl] at h
    cases hacc : accumulate (checkoutPriceMap store payload.items) payload.items 0 with
    | error e =>
      rw [hacc] at h
      exact absurd h (by simp)
    | ok s =>
      rw [hacc] at h
      simp only [Except.ok.injEq, Prod.mk.injEq] at h
      refine ⟨s, rfl, h.1.symm, ?_⟩
      rw [← h.1, ← h.2]

/-- Forward evaluation of a successful checkout. -/
lemma checkout_eq_ok (store : List StoredProduct) (payload : CheckoutRequest)
    (s : ℚ)
    (hne : (validIds payload.items).isEmpty = false)
    (hacc : accumulate (checkoutPriceMap store payload.items) payload.items 0 = .ok s) :
    checkout store payload = .ok (builtOrder payload s, computeTotal s) := by
  unfold checkout
  rw [if_neg (by simp [hne])]
  rw [show priceMap (findProducts store (validIds payload.items)) =
    checkoutPriceMap store payload.items from rfl, hacc]
  rfl

/-- Forward evaluation of a failing accumulation. -/
lemma checkout_eq_error (store : List StoredProduct) (payload : CheckoutRequest)
    (e : CheckoutError)
    (hne : (validIds payload.items).isEmpty = false)
    (hacc : accumulate (checkoutPriceMap store payload.items) payload.items 0 = .error e) :
    checkout store payload = .error e := by
  unfold checkout
  rw [if_neg (by simp [hne])]
  rw [show priceMap (findProducts store (validIds payload.items)) =
    checkoutPriceMap store payload.items from rfl, hacc]

/-- Every identifier in the batch-lookup list is syntactically valid. -/
lemma validIds_mem_valid (items : List CartItem) (pid : String)
    (h : pid ∈ validIds items) : isValidObjectId pid = true := by
  unfold validIds at h
  obtain ⟨i, hi, rfl⟩ := List.mem_map.mp h
  exact (List.mem_filter.mp hi).2

/-- A price-map hit comes from a product of the looked-up list with that id. -/
lemma priceMap_some_inv (products : List StoredProduct) (pid : String) (v : ℚ)
    (h : priceMap products pid = some v) :
    ∃ p, p ∈ products ∧ p.pid = pid ∧ v = priceOf p := by
  unfold priceMap at h
  cases hf : (products.reverse.find? (fun p => p.pid == pid)) with
  | none => rw [hf] at h; simp at h
  | some p =>
    rw [hf] at h
    refine ⟨p, List.mem_reverse.mp (List.mem_of_find?_eq_some hf), ?_, ?_⟩
    · have hpred := List.find?_some hf
      simp only [beq_iff_eq] at hpred
      exact hpred
    · simp at h; exact h.symm

/-- A syntactically invalid identifier is never a key of the price map built
by `checkout`: it was excluded from the batch lookup. -/
lemma checkoutPriceMap_invalid_none (store : List StoredProduct)
    (items : List CartItem) (pid : String)
    (h : isValidObjectId pid = false) :
    checkoutPriceMap store items pid = none := by
  cases hv : checkoutPriceMap store items pid with
  | none => rfl
  | some v =>
    obtain ⟨p, hp, hpid, _⟩ := priceMap_some_inv _ _ _ hv
    have hmem : p.pid ∈ validIds items := by
      have := (List.mem_filter.mp hp).2
      simpa using this
    have : isValidObjectId p.pid = true := validIds_mem_valid items p.pid hmem
    rw [hpid, h] at this
    exact absurd this (by simp)

/-! ## Concrete rounding computations -/

lemma round2_forty : round2 (40 : ℚ) = 40 :=
  round2_eq_low _ _ 4000 (by norm_num) (by norm_num) (by norm_num)

lemma computeTax_forty : computeTax (40 : ℚ) = 16/5 := by
  unfold computeTax
  exact round2_eq_low _ _ 320 (by norm_num) (by norm_num) (by norm_num)

lemma computeTotal_forty : computeTotal (40 : ℚ) = 216/5 := by
  unfold computeTotal
  rw [computeTax_forty]
  exact round2_eq_low _ _ 4320 (by norm_num) (by norm_num) (by norm_num)

lemma round2_c1raw : round2 ((8 : ℚ)/125) = 3/50 :=
  round2_eq_low _ _ 6 (by norm_num) (by norm_num) (by norm_num)

lemma computeTax_c1raw : computeTax ((8 : ℚ)/125) = 1/100 := by
  unfold computeTax
  exact round2_eq_high _ _ 0 (by norm_num) (by norm_num) (by norm_num)

lemma computeTotal_c1raw : computeTotal ((8 : ℚ)/125) = 7/100 := by
  unfold computeTotal
  rw [computeTax_c1raw]
  exact round2_eq_low _ _ 7 (by norm_num) (by norm_num) (by norm_num)

lemma round2_c2raw : round2 ((133 : ℚ)/125) = 53/50 :=
  round2_eq_low _ _ 106 (by norm_num) (by norm_num) (by norm_num)

lemma computeTax_c2raw : computeTax ((133 : ℚ)/125) = 9/100 := by
  unfold computeTax
  exact round2_eq_high _ _ 8 (by norm_num) (by norm_num) (by norm_num)

lemma computeTotal_c2raw : computeTotal ((133 : ℚ)/125) = 23/20 := by
  unfold computeTotal
  rw [computeTax_c2raw]
  exact round2_eq_low _ _ 115 (by norm_num) (by norm_num) (by norm_num)

/-! ## Claims -/

/-- C1 counterexample: with one catalog product priced 0.064 and quantity 1,
checkout persists subtotal 0.06 and tax 0.01, but the claimed invariant
`tax == round(subtotal * 0.08, 2)` demands round(0.06 * 0.08, 2) = 0.00 —
the code computes tax from the *unrounded* accumulated subtotal. -/
theorem C1_counterexample :
    checkout c1Store c1Payload = .ok (c1Order, 7/100) ∧
    c1Order.subtotal = 3/50 ∧ c1Order.tax = 1/100 ∧
    round2 (c1Order.subtotal * (8/100)) = 0 ∧
    c1Order.tax ≠ round2 (c1Order.subtotal * (8/100)) := by
  have hacc : accumulate (checkoutPriceMap c1Store c1Payload.items) c1Payload.items 0
      = .ok (8/125) := by
    show Except.ok ((0 : ℚ) + 8/125 * ((1 : ℤ) : ℚ)) = Except.ok (8/125)
    norm_num
  have hsub : c1Order.subtotal = 3/50 := by
    show round2 ((8 : ℚ)/125) = 3/50
    exact round2_c1raw
  have htax : c1Order.tax = 1/100 := by
    show computeTax ((8 : ℚ)/125) = 1/100
    exact computeTax_c1raw
  have hspec : round2 (c1Order.subtotal * (8/100)) = 0 := by
    rw [hsub]
    exact round2_eq_low _ _ 0 (by norm_num) (by norm_num) (by norm_num)
  refine ⟨?_, hsub, htax, hspec, ?_⟩
  · have h := checkout_eq_ok c1Store c1Payload (8/125) (by decide) hacc
    rw [computeTotal_c1raw] at h
    exact h
  · rw [htax, hspec]
    norm_num

/-- C1 (amended): for every order persisted by a successful checkout there is
an exact raw subtotal `s` — the accumulated sum of `unitPrice * quantity` —
with stored subtotal = round(s, 2), tax = round(s * 0.08, 2) and
total = round(s + tax, 2); tax and total are derived from the *unrounded*
`s`, so the original invariant holds whenever `s` already has at most two
decimal places. -/
theorem C1_amended_invariant :
    ∀ (store : List StoredProduct) (payload : CheckoutRequest) (o : Order) (t : ℚ),
      checkout store payload = .ok (o, t) →
      ∃ s, accumulate (checkoutPriceMap store payload.items) payload.items 0 = .ok s ∧
        o.subtotal = round2 s ∧ o.tax = round2 (s * (8/100)) ∧
        o.total = round2 (s + o.tax) ∧ t = o.total := by
  intro store payload o t h
  obtain ⟨s, hacc, ho, ht⟩ := checkout_ok_inv store payload o t h
  subst ho
  exact ⟨s, hacc, rfl, rfl, rfl, ht⟩

/-- Witness for C1 at the two-product scenario catalog. -/
theorem C1_amended_invariant_witness :
    ∃ s, accumulate (checkoutPriceMap demoStore demoPayload.items) demoPayload.items 0
        = .ok s ∧
      (builtOrder demoPayload 40).subtotal = round2 s ∧
      (builtOrder demoPayload 40).tax = round2 (s * (8/100)) ∧
      (builtOrder demoPayload 40).total = round2 (s + (builtOrder demoPayload 40).tax) ∧
      computeTotal 40 = (builtOrder demoPayload 40).total :=
  C1_amended_invariant demoStore demoPayload (builtOrder demoPayload 40) (computeTotal 40)
    (checkout_eq_ok demoStore demoPayload 40 (by decide)
      (by show Except.ok ((0 : ℚ) + 10 * ((2 : ℤ) : ℚ) + 20 * ((1 : ℤ) : ℚ))
            = Except.ok 40
          norm_num))

/-- C2 counterexample: with one catalog product priced 1.064 and quantity 1,
the persisted tax is 0.09, but deriving tax *after* rounding the subtotal
(as the claim states) would give round(1.06 * 0.08, 2) = 0.08 — rounding is
not applied to the subtotal before tax and total are derived. -/
theorem C2_counterexample :
    checkout c2Store c2Payload = .ok (c2Order, 23/20) ∧
    c2Order.subtotal = 53/50 ∧ c2Order.tax = 9/100 ∧
    round2 (c2Order.subtotal * (8/100)) = 2/25 ∧
    c2Order.tax ≠ round2 (c2Order.subtotal * (8/100)) := by
  have hacc : accumulate (checkoutPriceMap c2Store c2Payload.items) c2Payload.items 0
      = .ok (133/125) := by
    show Except.ok ((0 : ℚ) + 133/125 * ((1 : ℤ) : ℚ)) = Except.ok (133/125)
    norm_num
  have hsub : c2Order.subtotal = 53/50 := by
    show round2 ((133 : ℚ)/125) = 53/50
    exact round2_c2raw
  have htax : c2Order.tax = 9/100 := by
    show computeTax ((133 : ℚ)/125) = 9/100
    exact computeTax_c2raw
  have hspec : round2 (c2Order.subtotal * (8/100)) = 2/25 := by
    rw [hsub]
    exact round2_eq_low _ _ 8 (by norm_num) (by norm_num) (by norm_num)
  refine ⟨?_, hsub, htax, hspec, ?_⟩
  · have h := checkout_eq_ok c2Store c2Payload (133/125) (by decide) hacc
    rw [computeTotal_c2raw] at h
    exact h
  · rw [htax, hspec]
    norm_num

/-- C2 (amended): the accumulation is exact over the idealised rational
arithmetic — a successful accumulation returns precisely
`Σ unitPrice(productId) * quantity` — and the stored subtotal is rounded
once at the end; however tax and total are derived from the *unrounded*
sum.  The concrete scenario holds: catalog A ↦ 10.00, B ↦ 20.00 and items
[(A,2),(B,1)] give subtotal 40.00, tax 3.20, total 43.20. -/
theorem C2_amended_exact_accumulation :
    (∀ (pm : String → Option ℚ) (items : List CartItem) (acc s : ℚ),
        accumulate pm items acc = .ok s →
        s = acc + (items.map (fun i =>
          ((pm i.product_id).getD 0) * (i.quantity : ℚ))).sum) ∧
    checkout demoStore demoPayload = .ok (builtOrder demoPayload 40, 216/5) ∧
    (builtOrder demoPayload 40).subtotal = 40 ∧
    (builtOrder demoPayload 40).tax = 16/5 ∧
    (builtOrder demoPayload 40).total = 216/5 := by
  refine ⟨fun pm items acc s h => accumulate_ok_eq pm items acc s h, ?_, ?_, ?_, ?_⟩
  · have h := checkout_eq_ok demoStore demoPayload 40 (by decide)
      (by show Except.ok ((0 : ℚ) + 10 * ((2 : ℤ) : ℚ) + 20 * ((1 : ℤ) : ℚ))
            = Except.ok 40
          norm_num)
    rw [computeTotal_forty] at h
    exact h
  · exact round2_forty
  · exact computeTax_forty
  · exact computeTotal_forty

/-- Witness for C2's universally quantified conjunct at a one-item cart. -/
theorem C2_amended_exact_accumulation_witness :
    (20 : ℚ) = 0 + (([ { product_id := "x", quantity := 2 } ] : List CartItem).map
      (fun i => (((fun _ => some (10 : ℚ)) i.product_id).getD 0) * (i.quantity : ℚ))).sum :=
  C2_amended_exact_accumulation.1 (fun _ => some 10)
    [ { product_id := "x", quantity := 2 } ] 0 20
    (by show Except.ok ((0 : ℚ) + 10 * ((2 : ℤ) : ℚ)) = Except.ok 20
        norm_num)

/-- C3: once the batch lookup happens (some valid id survived), iterating the
original items in order, the first one whose id is not a key of the price
map aborts checkout with `ProductNotFound` carrying that id; and a
syntactically invalid id is never a key of the price map, so such an item
also fails at this stage. -/
theorem C3_first_missing_product :
    (∀ (store : List StoredProduct) (payload : CheckoutRequest) (i : CartItem),
        (validIds payload.items).isEmpty = false →
        payload.items.find?
            (fun j => ((checkoutPriceMap store payload.items) j.product_id).isNone)
          = some i →
        checkout store payload = .error (.productNotFound i.product_id)) ∧
    (∀ (store : List StoredProduct) (items : List CartItem) (pid : String),
        isValidObjectId pid = false →
        checkoutPriceMap store items pid = none) := by
  refine ⟨?_, checkoutPriceMap_invalid_none⟩
  intro store payload i hne hfind
  exact checkout_eq_error store payload _ hne
    (accumulate_find_missing _ payload.items i 0 hfind)

/-- Witness for C3: one stocked item plus one absent id fails naming the
absent id; a malformed id is absent from the price map. -/
theorem C3_first_missing_product_witness :
    checkout demoStore missingPayload = .error (.productNotFound pidC) ∧
    checkoutPriceMap demoStore missingPayload.items "zz" = none := by
  constructor
  · exact C3_first_missing_product.1 demoStore missingPayload
      { product_id := pidC, quantity := 1 } (by decide) (by decide)
  · exact C3_first_missing_product.2 demoStore missingPayload.items "zz" (by decide)

/-- C4: when no syntactically valid identifier survives the filtering —
in particular for an empty item list — checkout fails with `InvalidInput`
and the database is untouched (no lookup result is used, nothing is
persisted). -/
theorem C4_invalid_input :
    (∀ (db : DB) (payload : CheckoutRequest),
        validIds payload.items = [] →
        runCheckout db payload = (db, .error .invalidInput)) ∧
    (∀ (db : DB) (payload : CheckoutRequest),
        payload.items = [] →
        runCheckout db payload = (db, .error .invalidInput)) := by
  have h1 : ∀ (db : DB) (payload : CheckoutRequest),
      validIds payload.items = [] →
      runCheckout db payload = (db, .error .invalidInput) := by
    intro db payload h
    have hc : checkout db.product payload = .error .invalidInput := by
      unfold checkout
      rw [h]
      rfl
    unfold runCheckout
    rw [hc]
  refine ⟨h1, ?_⟩
  intro db payload h
  apply h1
  rw [h]
  rfl

/-- Witness for C4: a malformed-ids-only request and an empty request both
fail with `InvalidInput`, leaving the database unchanged. -/
theorem C4_invalid_input_witness :
    runCheckout demoDB
        { customer_name := "N", customer_email := "e", customer_address := "a"
          items := [ { product_id := "zz", quantity := 1 } ] }
      = (demoDB, .error .invalidInput) ∧
    runCheckout demoDB
        { customer_name := "N", customer_email := "e", customer_address := "a"
          items := [] }
      = (demoDB, .error .invalidInput) :=
  ⟨C4_invalid_input.1 demoDB _ (by decide), C4_invalid_input.2 demoDB _ rfl⟩

/-- C5: checkout is atomic with respect to order persistence — on any
failing request the database is returned unchanged; the insert happens only
after every item validated. -/
theorem C5_atomic_failure :
    ∀ (db : DB) (payload : CheckoutRequest) (e : CheckoutError),
      (runCheckout db payload).2 = .error e → (runCheckout db payload).1 = db := by
  intro db payload e h
  unfold runCheckout at h ⊢
  cases hc : checkout db.product payload with
  | error e2 => rfl
  | ok res =>
    rw [hc] at h
    cases res
    simp at h

/-- Witness for C5: the `[(A,1),(nonexistent,1)]` scenario persists nothing. -/
theorem C5_atomic_failure_witness : (runCheckout demoDB missingPayload).1 = demoDB :=
  C5_atomic_failure demoDB missingPayload (.productNotFound pidC) (by decide)

/-- C6: a fully valid request persists exactly one order — the database's
order collection grows by exactly that order — whose customer fields equal
the request's verbatim and whose item list is the request's item list in
order (productId and quantity only); the response carries the new order's
id and its total. -/
theorem C6_success_persists_order :
    ∀ (db : DB) (payload : CheckoutRequest) (o : Order) (t : ℚ),
      checkout db.product payload = .ok (o, t) →
      runCheckout db payload
          = ({ db with order := db.order ++ [o] },
             .ok { order_id := db.order.length, total := t }) ∧
      o.customer_name = payload.customer_name ∧
      o.customer_email = payload.customer_email ∧
      o.customer_address = payload.customer_address ∧
      o.items = payload.items.map (fun i =>
        { product_id := i.product_id, quantity := i.quantity }) ∧
      t = o.total := by
  intro db payload o t h
  obtain ⟨s, hacc, ho, ht⟩ := checkout_ok_inv db.product payload o t h
  subst ho
  refine ⟨?_, rfl, rfl, rfl, rfl, ht⟩
  unfold runCheckout
  rw [h]

/-- Witness for C6 at the two-product scenario. -/
theorem C6_success_persists_order_witness :
    runCheckout demoDB demoPayload
        = ({ demoDB with order := demoDB.order ++ [builtOrder demoPayload 40] },
           .ok { order_id := demoDB.order.length, total := computeTotal 40 }) ∧
    (builtOrder demoPayload 40).customer_name = demoPayload.customer_name ∧
    (builtOrder demoPayload 40).customer_email = demoPayload.customer_email ∧
    (builtOrder demoPayload 40).customer_address = demoPayload.customer_address ∧
    (builtOrder demoPayload 40).items = demoPayload.items.map (fun i =>
      { product_id := i.product_id, quantity := i.quantity }) ∧
    computeTotal 40 = (builtOrder demoPayload 40).total :=
  C6_success_persists_order demoDB demoPayload (builtOrder demoPayload 40) (computeTotal 40)
    (checkout_eq_ok demoStore demoPayload 40 (by decide)
      (by show Except.ok ((0 : ℚ) + 10 * ((2 : ℤ) : ℚ) + 20 * ((1 : ℤ) : ℚ))
            = Except.ok 40
          norm_num))

/-- C8: seeding is idempotent — a non-empty product collection makes the
seed a no-op reporting `seeded = false` with the existing count, an empty
one gets exactly the six samples appended; a second seed never changes the
collection size and reports `seeded = false`. -/
theorem C8_seed_idempotent :
    ∀ db : DB,
      seed_products db
          = (if db.product.length > 0 then
               (db, { seeded := false, count := some db.product.length })
             else
               ({ db with product := db.product ++ sampleProducts },
                { seeded := true, inserted := some 6 })) ∧
      sampleProducts.length = 6 ∧
      ((seed_products (seed_products db).1).1).product.length
        = ((seed_products db).1).product.length ∧
      ((seed_products (seed_products db).1).2).seeded = false := by
  intro db
  by_cases h : db.product.length > 0
  · have hfst : seed_products db
        = (db, { seeded := false, count := some db.product.length }) := by
      unfold seed_products
      rw [if_pos h]
    refine ⟨by rw [if_pos h]; exact hfst, rfl, by simp [hfst], by simp [hfst]⟩
  · have hfst : seed_products db
        = ({ db with product := db.product ++ sampleProducts },
           { seeded := true, inserted := some 6 }) := by
      unfold seed_products
      rw [if_neg h]
      rfl
    have hpos : (db.product ++ sampleProducts).length > 0 := by
      simp [sampleProducts]
    have hsnd : seed_products ({ db with product := db.product ++ sampleProducts })
        = ({ db with product := db.product ++ sampleProducts },
           { seeded := false, count := some (db.product ++ sampleProducts).length }) := by
      unfold seed_products
      rw [if_pos hpos]
    refine ⟨by rw [if_neg h]; exact hfst, rfl, by simp [hfst, hsnd], by simp [hfst, hsnd]⟩

/-- C9: a request item whose id resolves to a stored product with no price
field does not fail checkout: its unit price is 0, a zero-priced item adds
nothing to the accumulator, and (all items resolving) the order is
persisted. -/
theorem C9_missing_price_zero :
    ∀ (store : List StoredProduct) (payload : CheckoutRequest),
      (validIds payload.items).isEmpty = false →
      (∀ i ∈ payload.items,
          ((checkoutPriceMap store payload.items) i.product_id).isSome = true) →
      (∃ s, checkout store payload = .ok (builtOrder payload s, computeTotal s)) ∧
      (∀ (pid : String) (p : StoredProduct),
          (findProducts store (validIds payload.items)).reverse.find?
              (fun r => r.pid == pid) = some p →
          p.price = none →
          checkoutPriceMap store payload.items pid = some 0) ∧
      (∀ (pm : String → Option ℚ) (i : CartItem) (rest : List CartItem) (acc : ℚ),
          pm i.product_id = some 0 →
          accumulate pm (i :: rest) acc = accumulate pm rest acc) := by
  intro store payload hne hall
  refine ⟨?_, ?_, ?_⟩
  · obtain ⟨s, hs⟩ := accumulate_all_some _ payload.items 0 hall
    exact ⟨s, checkout_eq_ok store payload s hne hs⟩
  · intro pid p hfind hprice
    unfold checkoutPriceMap priceMap
    rw [hfind]
    simp [priceOf, hprice]
  · intro pm i rest acc hpm
    rw [accumulate, hpm]
    simp

/-- Witness for C9: a catalog whose only product has no price field; the
five-unit request succeeds. -/
theorem C9_missing_price_zero_witness :
    (∃ s, checkout c9Store c9Payload = .ok (builtOrder c9Payload s, computeTotal s)) ∧
    (∀ (pid : String) (p : StoredProduct),
        (findProducts c9Store (validIds c9Payload.items)).reverse.find?
            (fun r => r.pid == pid) = some p →
        p.price = none →
        checkoutPriceMap c9Store c9Payload.items pid = some 0) ∧
    (∀ (pm : String → Option ℚ) (i : CartItem) (rest : List CartItem) (acc : ℚ),
        pm i.product_id = some 0 →
        accumulate pm (i :: rest) acc = accumulate pm rest acc) :=
  C9_missing_price_zero c9Store c9Payload (by decide) (by decide)

/-- C10: `quantity` is an unconstrained integer — for any `qty : ℤ` (and any
unit price) the one-item checkout succeeds with raw subtotal
`price * qty`; concretely, price 10 with quantity −1 persists an order with
subtotal −10.00, tax −0.80 and total −10.80 < 0. -/
theorem C10_quantity_unconstrained :
    (∀ (qty : ℤ) (price : ℚ),
        checkout (c10Store price) (c10Payload qty)
          = .ok (builtOrder (c10Payload qty) (price * (qty : ℚ)),
                 computeTotal (price * (qty : ℚ)))) ∧
    runCheckout { product := c10Store 10, order := [] } (c10Payload (-1))
        = ({ product := c10Store 10, order := [c10NegOrder] },
           .ok { order_id := 0, total := -54/5 }) ∧
    c10NegOrder.subtotal = -10 ∧ c10NegOrder.tax = -4/5 ∧
    c10NegOrder.total = -54/5 ∧ c10NegOrder.total < 0 := by
  have htax : computeTax (-10 : ℚ) = -4/5 := by
    unfold computeTax
    exact round2_eq_low _ _ (-80) (by norm_num) (by norm_num) (by norm_num)
  have htot : computeTotal (-10 : ℚ) = -54/5 := by
    unfold computeTotal
    rw [htax]
    exact round2_eq_low _ _ (-1080) (by norm_num) (by norm_num) (by norm_num)
  refine ⟨?_, ?_, ?_, htax, htot, ?_⟩
  case refine_4 =>
    show computeTotal (-10 : ℚ) < 0
    rw [htot]
    norm_num
  · intro qty price
    apply checkout_eq_ok (c10Store price) (c10Payload qty) (price * (qty : ℚ)) rfl
    show Except.ok ((0 : ℚ) + price * (qty : ℚ)) = Except.ok (price * (qty : ℚ))
    rw [zero_add]
  · have hc := checkout_eq_ok (c10Store 10) (c10Payload (-1)) (-10) rfl
      (by show Except.ok ((0 : ℚ) + 10 * ((-1 : ℤ) : ℚ)) = Except.ok (-10)
          norm_num)
    unfold runCheckout
    rw [hc, htot]
    rfl
  · show round2 (-10 : ℚ) = -10
    exact round2_eq_low _ _ (-1000) (by norm_num) (by norm_num) (by norm_num)

end ECom
